import Mathlib

/-!
# pal-server-helper: the memory monitor and the reboot cycle

A shallow embedding of `main.go` (`log`, `monitorMemoryUsage`, `notifyReboot`,
`reboot`).  The program is sequential code that talks to four collaborators:
the wall clock, the host memory sampler, the remote console client and the
shell that runs the reboot script.  Every call to a collaborator is recorded,
in program order, in a trace of `Event`s carried by the `World`; what the
collaborator answers is read from an `Env` of oracles, so that theorems can
quantify over every possible answer.
-/

namespace PalServerHelper

/-! ## Values -/

/-- A `float64` as far as `>` and `%.2f` observe it: not-a-number, the two
infinities, the negative zero `-0.0`, or a finite value (every finite double
is a rational; `fin 0` is the positive zero). -/
inductive F64 where
  | nan
  | negInf
  | posInf
  | negZero
  | fin (q : ℚ)
deriving DecidableEq

/-- Go's `a > b` on `float64`: false as soon as one side is NaN; the negative
zero compares as zero. -/
def F64.gt : F64 → F64 → Bool
  | .fin a, .fin b => decide (b < a)
  | .fin a, .negZero => decide (0 < a)
  | .negZero, .fin b => decide (b < 0)
  | .posInf, .fin _ => true
  | .posInf, .negZero => true
  | .posInf, .negInf => true
  | .fin _, .negInf => true
  | .negZero, .negInf => true
  | _, _ => false

/-- Go's `a <= b` on `float64` (used on the specification side only). -/
def F64.le : F64 → F64 → Bool
  | .fin a, .fin b => decide (a ≤ b)
  | .fin a, .negZero => decide (a ≤ 0)
  | .negZero, .fin b => decide (0 ≤ b)
  | .negZero, .negZero => true
  | .negInf, .fin _ => true
  | .negInf, .negZero => true
  | .negInf, .negInf => true
  | .negInf, .posInf => true
  | .fin _, .posInf => true
  | .negZero, .posInf => true
  | .posInf, .posInf => true
  | _, _ => false

/-- The `HelperConfig` record of `main.go`, field for field. -/
structure HelperConfig where
  IP : String
  Port : Int
  Password : String
  RetryCount : Int
  RetryDelay : Int
  RebootScriptPath : String
  RebootSeconds : Int
  OOMThreshold : F64
  OOMCheckInterval : Int

/-- The part of gopsutil's `VirtualMemoryStat` that the program reads. -/
structure VirtualMemoryStat where
  UsedPercent : F64

/-- A wall-clock reading, as `time.Now()` returns it, in civil fields
(years 0 to 9999). -/
structure Time where
  year : Nat
  month : Nat
  day : Nat
  hour : Nat
  minute : Nat
  second : Nat

/-- Two decimal digits, zero padded. -/
def pad2 (n : Nat) : List Char :=
  [Nat.digitChar (n / 10 % 10), Nat.digitChar (n % 10)]

/-- Four decimal digits, zero padded. -/
def pad4 (n : Nat) : List Char :=
  [Nat.digitChar (n / 1000 % 10), Nat.digitChar (n / 100 % 10),
   Nat.digitChar (n / 10 % 10), Nat.digitChar (n % 10)]

/-- The rendering `currentTime.Format("2006-01-02 15:04:05")`. -/
def Time.format (t : Time) : String :=
  String.mk (pad4 t.year ++ '-' :: pad2 t.month ++ '-' :: pad2 t.day ++ ' ' ::
    pad2 t.hour ++ ':' :: pad2 t.minute ++ ':' :: pad2 t.second)

/-- The function `strconv.Itoa`, also what the verb `%d` prints. -/
def Itoa (n : Int) : String := toString n

/-- Rounding of a non-negative rational to the nearest natural number, a tie
going to the even neighbour. -/
def roundHalfEven (q : ℚ) : Nat :=
  let fl := (Rat.floor q).toNat
  let r := q - fl
  if r < 1 / 2 then fl
  else if 1 / 2 < r then fl + 1
  else if fl % 2 = 0 then fl else fl + 1

/-- The verb `%.2f` of `fmt.Sprintf`. -/
def fmt2f : F64 → String
  | .nan => "NaN"
  | .posInf => "+Inf"
  | .negInf => "-Inf"
  | .negZero => "-0.00"
  | .fin q =>
    let n := roundHalfEven (|q| * 100)
    (if q < 0 then "-" else "") ++ toString (n / 100) ++ "." ++ String.mk (pad2 (n % 100))

/-- Number of nanoseconds in `time.Second`. -/
def Second : Int := 1000000000

/-- Number of nanoseconds in `time.Minute`. -/
def Minute : Int := 60 * Second

/-- Signed 64-bit wrap-around of an integer result. -/
def wrapInt64 (x : Int) : Int := (x + 2 ^ 63) % 2 ^ 64 - 2 ^ 63

/-! ## Effects -/

/-- One call to a collaborator, as it appears in the trace. -/
inductive Event where
  /-- Call of `fmt.Println` with one line. -/
  | println (line : String)
  /-- Call of `mem.VirtualMemory()`. -/
  | memRead
  /-- Call of `client.Reboot(seconds)`. -/
  | clientReboot (seconds : String)
  /-- Call of `client.Broadcast(message)`. -/
  | clientBroadcast (message : String)
  /-- Call of `client.Close()`. -/
  | clientClose
  /-- Call of `time.Sleep(d)`, with `d` in nanoseconds. -/
  | sleep (d : Int)
  /-- Call of `exec.Command(name, args...).Run()`. -/
  | cmdRun (name : String) (args : List String)
  /-- Call of `wg.Add(delta)`; `wg.Done()` is `wg.Add(-1)`. -/
  | wgAdd (delta : Int)
  /-- Return of `wg.Wait()`. -/
  | wgWait
deriving DecidableEq

/-- What the collaborators answer.  Each oracle is indexed by the number of
earlier calls of the same kind. -/
structure Env where
  /-- The reading of the `k`-th `time.Now()`. -/
  now : Nat → Time
  /-- The error of the `k`-th `client.Reboot` / `client.Broadcast` call
  (`none`: the call succeeded). -/
  client : Nat → Option String
  /-- The error of the `k`-th `cmd.Run()` (`none`: exit status 0). -/
  run : Nat → Option String

/-- The state threaded through the program. -/
structure World where
  /-- Collaborator calls made so far, oldest first. -/
  trace : List Event
  /-- The counter of the `sync.WaitGroup`. -/
  wg : Int
  /-- Number of `time.Now()` calls so far. -/
  nowCalls : Nat
  /-- Number of `client.Reboot` / `client.Broadcast` calls so far. -/
  clientCalls : Nat
  /-- Number of `cmd.Run()` calls so far. -/
  runCalls : Nat

/-- Ways in which the goroutine stops making progress. -/
inductive Halt where
  | panic (msg : String)
  | blocked
  | outOfFuel
deriving DecidableEq

/-- Append one event to the trace. -/
def emit (e : Event) (w : World) : World :=
  { w with trace := w.trace ++ [e] }

/-- The call `fmt.Println(line)`. -/
def println (line : String) (w : World) : World :=
  emit (.println line) w

/-- The call `time.Sleep(d)`. -/
def sleep (d : Int) (w : World) : World :=
  emit (.sleep d) w

/-- The call `client.Close()`. -/
def clientClose (w : World) : World :=
  emit .clientClose w

/-- The call `client.Reboot(seconds)`; the first component is its error. -/
def clientReboot (env : Env) (seconds : String) (w : World) : Option String × World :=
  (env.client w.clientCalls,
   emit (.clientReboot seconds) { w with clientCalls := w.clientCalls + 1 })

/-- The call `client.Broadcast(message)`; the first component is its error. -/
def clientBroadcast (env : Env) (message : String) (w : World) : Option String × World :=
  (env.client w.clientCalls,
   emit (.clientBroadcast message) { w with clientCalls := w.clientCalls + 1 })

/-- The calls `exec.Command(name, args...)` and `cmd.Run()`. -/
def cmdRun (env : Env) (name : String) (args : List String) (w : World) :
    Option String × World :=
  (env.run w.runCalls, emit (.cmdRun name args) { w with runCalls := w.runCalls + 1 })

/-- The call `wg.Add(delta)`: panics when the counter would become negative. -/
def wgAdd (delta : Int) (w : World) : Except Halt World :=
  if w.wg + delta < 0 then .error (.panic "sync: negative WaitGroup counter")
  else .ok (emit (.wgAdd delta) { w with wg := w.wg + delta })

/-- The call `wg.Done()`. -/
def wgDone (w : World) : Except Halt World :=
  wgAdd (-1) w

/-- The call `wg.Wait()`: returns when the counter is zero.  No other goroutine
holds the group, so a non-zero counter blocks for ever. -/
def wgWait (w : World) : Except Halt World :=
  if w.wg = 0 then .ok (emit .wgWait w) else .error .blocked

/-! ## The program -/

/-- The function `log` (lines 64-68). -/
def log (env : Env) (message : String) (w : World) : World :=
  let currentTime := env.now w.nowCalls
  let formattedTime := currentTime.format
  println (formattedTime ++ ": " ++ message) { w with nowCalls := w.nowCalls + 1 }

/-- The loop `for countdown > 0 { ... countdown-- }` of `notifyReboot`
(lines 121-126); `fuel` bounds the number of iterations. -/
def countdownLoop (env : Env) : Nat → Int → World → Except Halt World
  | 0, countdown, w => if countdown > 0 then .error .outOfFuel else .ok w
  | fuel + 1, countdown, w =>
    if countdown > 0 then
      let message := "OOM_server_reboot_in_" ++ Itoa countdown ++ "s"
      let w := (clientBroadcast env message w).2
      let w := sleep Second w
      countdownLoop env fuel (countdown - 1) w
    else .ok w

/-- The function `notifyReboot` (lines 114-127). -/
def notifyReboot (env : Env) (config : HelperConfig) (w : World) : Except Halt World := do
  let w := log env "Notify to reboot" w
  let seconds := Itoa config.RebootSeconds
  let w := (clientReboot env seconds w).2
  let countdown := config.RebootSeconds
  let w ← countdownLoop env countdown.toNat countdown w
  wgDone w

/-- The function `reboot` (lines 129-149). -/
def reboot (env : Env) (config : HelperConfig) (w : World) : Except Halt World := do
  let w := log env "closing RCON client" w
  let w := clientClose w
  let w := log env "Waiting to restart..." w
  let w := sleep (10 * Second) w
  let w := log env "Rebooting..." w
  let (err, w) := cmdRun env "sh" [config.RebootScriptPath] w
  let w :=
    match err with
    | some e => println ("Failed to execute reboot script: " ++ e) w
    | none =>
      let w := log env "Reboot script executed successfully" w
      let w := clientClose w
      let w := log env "Waiting for service to restart..." w
      let w := sleep (2 * Minute) w
      log env "Service restarted" w
  wgDone w

/-- The body of `if usedPercent > config.OOMThreshold` (lines 105-108): one
reboot cycle. -/
def rebootCycle (env : Env) (config : HelperConfig) (w : World) : Except Halt World := do
  let w ← wgAdd 2 w
  let w ← notifyReboot env config w
  let w ← reboot env config w
  wgWait w

/-- One tick of the ticker (lines 95-109); `sample` is what
`mem.VirtualMemory()` returns at that tick. -/
def tick (env : Env) (config : HelperConfig) (sample : Except String VirtualMemoryStat)
    (w : World) : Except Halt World :=
  let w := emit .memRead w
  match sample with
  | .error err => .ok (println ("Failed to get memory info: " ++ err) w)
  | .ok memory =>
    let usedPercent := memory.UsedPercent
    let w := log env ("Current memory usage: " ++ fmt2f usedPercent ++ "%\n") w
    if F64.gt usedPercent config.OOMThreshold then rebootCycle env config w
    else .ok w

/-- The loop `for { select { case <-ticker.C: ... } }` (lines 93-111) over
the ticks that have fired. -/
def monitorLoop (env : Env) (config : HelperConfig) :
    List (Except String VirtualMemoryStat) → World → Except Halt World
  | [], w => .ok w
  | sample :: rest, w => do
    let w ← tick env config sample w
    monitorLoop env config rest w

/-- The period `time.Duration(config.OOMCheckInterval) * time.Second`. -/
def tickerPeriod (config : HelperConfig) : Int :=
  wrapInt64 (config.OOMCheckInterval * Second)

/-- The function `monitorMemoryUsage` (lines 87-112), run over the finite
sequence `ticks` of ticks.  `time.NewTicker` panics on a non-positive period;
`var wg sync.WaitGroup` starts the counter at zero. -/
def monitorMemoryUsage (env : Env) (config : HelperConfig)
    (ticks : List (Except String VirtualMemoryStat)) (w : World) : Except Halt World :=
  if tickerPeriod config ≤ 0 then .error (.panic "non-positive interval for NewTicker")
  else monitorLoop env config ticks { w with wg := 0 }

/-- The world in which the goroutine starts. -/
def World.init : World :=
  { trace := [], wg := 0, nowCalls := 0, clientCalls := 0, runCalls := 0 }

/-! ## Expected traces -/

/-- A line as `log` writes it at time `t`. -/
def stamp (t : Time) (message : String) : Event :=
  .println (t.format ++ ": " ++ message)

/-- The text of the countdown broadcast for the count `k`. -/
def countdownMessage (k : Int) : String :=
  "OOM_server_reboot_in_" ++ Itoa k ++ "s"

/-- Broadcast and one-second wait for the counts `n`, `n - 1`, ..., `1`. -/
def countdownEvents : Nat → List Event
  | 0 => []
  | n + 1 =>
    .clientBroadcast (countdownMessage ((n + 1 : Nat) : Int)) :: .sleep Second ::
      countdownEvents n

/-- Everything `notifyReboot` does when its `log` call reads the time `t`. -/
def notifyEvents (config : HelperConfig) (t : Time) : List Event :=
  stamp t "Notify to reboot" :: .clientReboot (Itoa config.RebootSeconds) ::
    (countdownEvents config.RebootSeconds.toNat ++ [.wgAdd (-1)])

/-- What `reboot` does after `cmd.Run()` returned `err`; `now k` is the time
read by the `k`-th `log` call of `reboot`. -/
def afterScriptEvents (now : Nat → Time) : Option String → List Event
  | some e => [.println ("Failed to execute reboot script: " ++ e)]
  | none =>
    [stamp (now 3) "Reboot script executed successfully", .clientClose,
     stamp (now 4) "Waiting for service to restart...", .sleep (2 * Minute),
     stamp (now 5) "Service restarted"]

/-- Everything `reboot` does when `cmd.Run()` returns `err`. -/
def rebootEvents (config : HelperConfig) (now : Nat → Time) (err : Option String) :
    List Event :=
  [stamp (now 0) "closing RCON client", .clientClose,
   stamp (now 1) "Waiting to restart...", .sleep (10 * Second),
   stamp (now 2) "Rebooting...", .cmdRun "sh" [config.RebootScriptPath]] ++
    afterScriptEvents now err ++ [.wgAdd (-1)]

/-- Number of `log` calls `reboot` makes when `cmd.Run()` returns `err`. -/
def rebootLogs : Option String → Nat
  | some _ => 3
  | none => 6

/-- Everything one reboot cycle does; `now k` is the time read by the `k`-th
`log` call of the cycle and `err` what `cmd.Run()` returns. -/
def cycleEvents (config : HelperConfig) (now : Nat → Time) (err : Option String) :
    List Event :=
  .wgAdd 2 :: (notifyEvents config (now 0) ++
    (rebootEvents config (fun k => now (1 + k)) err ++ [.wgWait]))

/-- The message of the usage line of a tick. -/
def usageMessage (memory : VirtualMemoryStat) : String :=
  "Current memory usage: " ++ fmt2f memory.UsedPercent ++ "%\n"

/-- Everything one tick does; `now k` is the time read by the `k`-th `log`
call of the tick and `err` what `cmd.Run()` returns if the tick runs it. -/
def tickEvents (config : HelperConfig) (now : Nat → Time) (err : Option String) :
    Except String VirtualMemoryStat → List Event
  | .error e => [.memRead, .println ("Failed to get memory info: " ++ e)]
  | .ok memory =>
    .memRead :: stamp (now 0) (usageMessage memory) ::
      (if F64.gt memory.UsedPercent config.OOMThreshold then
        cycleEvents config (fun k => now (1 + k)) err
      else [])

/-- The events of one tick, for some answers of the clock and of the shell. -/
def TickShape (config : HelperConfig) (sample : Except String VirtualMemoryStat)
    (evs : List Event) : Prop :=
  ∃ (now : Nat → Time) (err : Option String), evs = tickEvents config now err sample

/-- The events of a sequence of ticks: the events of each tick, in order. -/
def LoopShape (config : HelperConfig) :
    List (Except String VirtualMemoryStat) → List Event → Prop
  | [], evs => evs = []
  | sample :: rest, evs =>
    ∃ e1 e2, evs = e1 ++ e2 ∧ TickShape config sample e1 ∧ LoopShape config rest e2

/-- The world `w` with the events `p` put in front of its trace. -/
def World.prepend (p : List Event) (w : World) : World :=
  { w with trace := p ++ w.trace }

/-! ## Observations on traces -/

/-- Number of reboot cycles started in a trace: the calls `wg.Add(2)`. -/
def cycleStarts (evs : List Event) : Nat :=
  evs.count (.wgAdd 2)

/-- Whether the tick with this sampler outcome has a sample strictly above the
threshold. -/
def aboveThreshold (config : HelperConfig) : Except String VirtualMemoryStat → Bool
  | .error _ => false
  | .ok memory => F64.gt memory.UsedPercent config.OOMThreshold

/-- Calls to the remote console, waits and script runs: what a cycle does to
the outside, without the log lines and the join counter. -/
def isCollab : Event → Bool
  | .clientReboot _ => true
  | .clientBroadcast _ => true
  | .clientClose => true
  | .sleep _ => true
  | .cmdRun _ _ => true
  | _ => false

/-- The effects of a trace on the collaborators, in order. -/
def collab (evs : List Event) : List Event :=
  evs.filter isCollab

/-- The payloads of the broadcasts of a trace, in order. -/
def broadcasts : List Event → List String
  | [] => []
  | .clientBroadcast message :: rest => message :: broadcasts rest
  | _ :: rest => broadcasts rest

/-- The durations of the waits of a trace, in order. -/
def waits : List Event → List Int
  | [] => []
  | .sleep d :: rest => d :: waits rest
  | _ :: rest => waits rest

/-- The lines a trace writes to the output, in order. -/
def lines : List Event → List String
  | [] => []
  | .println line :: rest => line :: lines rest
  | _ :: rest => lines rest

/-- The counts `N`, `N - 1`, ..., `1` (none when `N` is not positive). -/
def countdownCounts (N : Int) : List Int :=
  (List.range N.toNat).map (fun (i : Nat) => N - (i : Int))

/-- Whether an event is `client.Close()`. -/
def isClose : Event → Bool
  | .clientClose => true
  | _ => false

/-- Whether an event is a run of a command. -/
def isCmdRun : Event → Bool
  | .cmdRun _ _ => true
  | _ => false

/-- The time, in nanoseconds, spent in `time.Sleep` before the first event of
the trace that satisfies `p`. -/
def waitedBefore (p : Event → Bool) : List Event → Int
  | [] => 0
  | e :: rest =>
    if p e then 0
    else (match e with
          | .sleep d => d
          | _ => 0) + waitedBefore p rest

/-- The events that mark the control flow of the loop: a memory read opens a
tick, `wg.Add` and `wg.Wait` delimit a cycle. -/
def isControl : Event → Bool
  | .memRead => true
  | .wgAdd _ => true
  | .wgWait => true
  | _ => false

/-- The control events of a trace, in order. -/
def control (evs : List Event) : List Event :=
  evs.filter isControl

/-- The values the join counter takes, one per `wg.Add`, starting from `c`. -/
def wgHistory : Int → List Event → List Int
  | _, [] => []
  | c, .wgAdd d :: rest => (c + d) :: wgHistory (c + d) rest
  | c, _ :: rest => wgHistory c rest

/-- A line as the timestamping logger writes it: the rendering of a time,
then `": "`, then the message. -/
def IsLogLine (line : String) : Prop :=
  ∃ (t : Time) (message : String), line = t.format ++ ": " ++ message

/-- A line as the two failure paths write it with `fmt.Println`. -/
def IsFailureLine (line : String) : Prop :=
  (∃ e : String, line = "Failed to get memory info: " ++ e) ∨
  (∃ e : String, line = "Failed to execute reboot script: " ++ e)

/-- A line that is either a log line or a failure line. -/
def IsOutputLine (line : String) : Prop :=
  IsLogLine line ∨ IsFailureLine line

/-- One write to the output: through `log`, or with `fmt.Println` directly. -/
inductive Written where
  | logged (message : String)
  | direct (text : String)

/-- The argument of `fmt.Println` for each write of a list, when the next
reading of the clock is the `k`-th one: a logged message is put behind the
rendering of the time read at its call and `": "`, a direct text is written as
it is. -/
def renderWrites (now : Nat → Time) : Nat → List Written → List String
  | _, [] => []
  | k, .logged message :: rest =>
    ((now k).format ++ ": " ++ message) :: renderWrites now (k + 1) rest
  | k, .direct text :: rest => text :: renderWrites now k rest

/-- Number of writes of a list that go through `log`. -/
def loggedCount : List Written → Nat
  | [] => 0
  | .logged _ :: rest => loggedCount rest + 1
  | .direct _ :: rest => loggedCount rest

/-- The writes of one reboot cycle whose run of the script returns `err`. -/
def cycleWrites (err : Option String) : List Written :=
  [.logged "Notify to reboot", .logged "closing RCON client",
   .logged "Waiting to restart...", .logged "Rebooting..."] ++
    (match err with
      | some e => [.direct ("Failed to execute reboot script: " ++ e)]
      | none =>
        [.logged "Reboot script executed successfully",
         .logged "Waiting for service to restart...", .logged "Service restarted"])

/-- The writes of one tick; `err` is what the run of the script returns if the
tick starts a cycle. -/
def tickWrites (config : HelperConfig) (err : Option String) :
    Except String VirtualMemoryStat → List Written
  | .error e => [.direct ("Failed to get memory info: " ++ e)]
  | .ok memory =>
    .logged ("Current memory usage: " ++ fmt2f memory.UsedPercent ++ "%\n") ::
      (if F64.gt memory.UsedPercent config.OOMThreshold then cycleWrites err else [])

/-- The writes of a sequence of ticks; `run r` is what the `r`-th run of the
script returns. -/
def loopWrites (config : HelperConfig) (run : Nat → Option String) :
    Nat → List (Except String VirtualMemoryStat) → List Written
  | _, [] => []
  | r, sample :: rest =>
    tickWrites config (run r) sample ++
      loopWrites config run (if aboveThreshold config sample then r + 1 else r) rest

/-- The text written to the output: every argument of `fmt.Println`, each
followed by the newline `fmt.Println` adds. -/
def stdout (evs : List Event) : List Char :=
  (lines evs).flatMap (fun line => line.data ++ ['\n'])

/-- The lines of a text: the stretches of characters that a newline ends, and
the rest after the last newline when it is not empty. -/
def physLines : List Char → List (List Char)
  | [] => []
  | c :: cs =>
    if c = '\n' then [] :: physLines cs
    else
      match physLines cs with
      | [] => [[c]]
      | l :: ls => (c :: l) :: ls

/-- The lines of the text a trace writes to the output. -/
def outputLines (evs : List Event) : List String :=
  (physLines (stdout evs)).map String.mk

/-! ## Concrete inputs -/

/-- A clock that starts on 2024-02-03 04:05:00, console calls that succeed, and
a shell whose first run fails. -/
def sampleEnv : Env :=
  { now := fun k => ⟨2024, 2, 3, 4, 5, k⟩,
    client := fun _ => none,
    run := fun k => if k = 0 then some "exit status 1" else none }

/-- A configuration with a countdown of three seconds and a threshold of 90. -/
def sampleConfig : HelperConfig :=
  { IP := "127.0.0.1", Port := 25575, Password := "secret", RetryCount := 3, RetryDelay := 1,
    RebootScriptPath := "/opt/reboot.sh", RebootSeconds := 3, OOMThreshold := .fin 90,
    OOMCheckInterval := 5 }

/-- An environment like `sampleEnv` in which every run of the script succeeds. -/
def successEnv : Env :=
  { sampleEnv with run := fun _ => none }

/-- A world in which one `wg.Done()` is outstanding. -/
def pendingWorld : World :=
  { World.init with wg := 1 }

/-! ## What each function returns -/

theorem countdownLoop_natCast (env : Env) :
    ∀ (n : Nat) (w : World), countdownLoop env n (n : Int) w =
      .ok { w with trace := w.trace ++ countdownEvents n, clientCalls := w.clientCalls + n } := by
  intro n
  induction n with
  | zero => intro w; simp [countdownLoop, countdownEvents]
  | succ n ih =>
    intro w
    have hpos : ((n + 1 : Nat) : Int) > 0 := by omega
    have hpred : ((n + 1 : Nat) : Int) - 1 = (n : Int) := by omega
    rw [countdownLoop, if_pos hpos, hpred, ih]
    simp [clientBroadcast, sleep, emit, countdownEvents, countdownMessage, Nat.add_assoc,
      Nat.add_comm 1 n]

theorem countdownLoop_eq (env : Env) (N : Int) (w : World) :
    countdownLoop env N.toNat N w =
      .ok { w with trace := w.trace ++ countdownEvents N.toNat,
                   clientCalls := w.clientCalls + N.toNat } := by
  rcases le_or_lt 0 N with h | h
  · have hN : ((N.toNat : Nat) : Int) = N := Int.toNat_of_nonneg h
    have := countdownLoop_natCast env N.toNat w
    rwa [hN] at this
  · have h0 : N.toNat = 0 := by omega
    have hn : ¬ N > 0 := by omega
    rw [h0, countdownLoop, if_neg hn]
    simp [countdownEvents]

theorem notifyReboot_eq (env : Env) (config : HelperConfig) (w : World) (h : 1 ≤ w.wg) :
    notifyReboot env config w =
      .ok { trace := w.trace ++ notifyEvents config (env.now w.nowCalls),
            wg := w.wg - 1,
            nowCalls := w.nowCalls + 1,
            clientCalls := w.clientCalls + 1 + config.RebootSeconds.toNat,
            runCalls := w.runCalls } := by
  have hd : ¬ (w.wg + -1 < 0) := by omega
  simp [notifyReboot, countdownLoop_eq, wgDone, wgAdd, log, println, clientReboot, emit,
    notifyEvents, stamp, hd, bind, Except.bind]
  rfl

theorem reboot_eq (env : Env) (config : HelperConfig) (w : World) (h : 1 ≤ w.wg) :
    reboot env config w =
      .ok { trace := w.trace ++
              rebootEvents config (fun k => env.now (w.nowCalls + k)) (env.run w.runCalls),
            wg := w.wg - 1,
            nowCalls := w.nowCalls + rebootLogs (env.run w.runCalls),
            clientCalls := w.clientCalls,
            runCalls := w.runCalls + 1 } := by
  have hd : ¬ (w.wg + -1 < 0) := by omega
  cases hrun : env.run w.runCalls <;>
    simp [reboot, wgDone, wgAdd, log, println, clientClose, sleep, cmdRun, emit,
      rebootEvents, afterScriptEvents, rebootLogs, stamp, hd, hrun, bind, Except.bind] <;>
    rfl

theorem rebootCycle_eq (env : Env) (config : HelperConfig) (w : World) (h : w.wg = 0) :
    rebootCycle env config w =
      .ok { trace := w.trace ++
              cycleEvents config (fun k => env.now (w.nowCalls + k)) (env.run w.runCalls),
            wg := 0,
            nowCalls := w.nowCalls + 1 + rebootLogs (env.run w.runCalls),
            clientCalls := w.clientCalls + 1 + config.RebootSeconds.toNat,
            runCalls := w.runCalls + 1 } := by
  have hadd : wgAdd 2 w = .ok (emit (.wgAdd 2) { w with wg := 2 }) := by
    simp [wgAdd, h]
  have h1 : (1 : Int) ≤ (emit (.wgAdd 2) { w with wg := 2 }).wg := by simp [emit]
  simp only [rebootCycle, hadd, bind, Except.bind]
  rw [notifyReboot_eq env config _ h1]
  simp only []
  rw [reboot_eq env config _ (by simp [emit])]
  simp [wgWait, emit, cycleEvents, Nat.add_assoc]

theorem tick_error_eq (env : Env) (config : HelperConfig) (e : String) (w : World) :
    tick env config (.error e) w =
      .ok { w with trace := w.trace ++ (tickEvents config
              (fun k => env.now (w.nowCalls + k)) (env.run w.runCalls) (.error e)) } := by
  simp [tick, tickEvents, println, emit]

theorem tick_below_eq (env : Env) (config : HelperConfig) (memory : VirtualMemoryStat)
    (w : World) (hgt : F64.gt memory.UsedPercent config.OOMThreshold = false) :
    tick env config (.ok memory) w =
      .ok { w with trace := w.trace ++ (tickEvents config
              (fun k => env.now (w.nowCalls + k)) (env.run w.runCalls) (.ok memory)),
                   nowCalls := w.nowCalls + 1 } := by
  simp [tick, tickEvents, log, println, emit, hgt, stamp, usageMessage]

theorem tick_above_eq (env : Env) (config : HelperConfig) (memory : VirtualMemoryStat)
    (w : World) (hgt : F64.gt memory.UsedPercent config.OOMThreshold = true)
    (h : w.wg = 0) :
    tick env config (.ok memory) w =
      .ok { trace := w.trace ++
              tickEvents config (fun k => env.now (w.nowCalls + k)) (env.run w.runCalls)
                (.ok memory),
            wg := 0,
            nowCalls := w.nowCalls + 1 + 1 + rebootLogs (env.run w.runCalls),
            clientCalls := w.clientCalls + 1 + config.RebootSeconds.toNat,
            runCalls := w.runCalls + 1 } := by
  simp only [tick, hgt, if_true]
  rw [rebootCycle_eq env config _ (by simp [log, println, emit, h])]
  simp [tickEvents, log, println, emit, hgt, stamp, usageMessage, Nat.add_assoc]

/-! ## The loop -/

theorem tick_shape (env : Env) (config : HelperConfig)
    (sample : Except String VirtualMemoryStat) (w : World) (h : w.wg = 0) :
    ∃ w', tick env config sample w = .ok w' ∧ w'.wg = 0 ∧
      ∃ evs, w'.trace = w.trace ++ evs ∧ TickShape config sample evs := by
  cases sample with
  | error e =>
    exact ⟨_, tick_error_eq env config e w, h, _, rfl, _, _, rfl⟩
  | ok memory =>
    cases hgt : F64.gt memory.UsedPercent config.OOMThreshold with
    | false => exact ⟨_, tick_below_eq env config memory w hgt, h, _, rfl, _, _, rfl⟩
    | true => exact ⟨_, tick_above_eq env config memory w hgt h, rfl, _, rfl, _, _, rfl⟩

theorem tick_frame (env : Env) (config : HelperConfig)
    (sample : Except String VirtualMemoryStat) (w w' : World) (p : List Event)
    (h : w.wg = 0) (hw : tick env config sample w = .ok w') :
    tick env config sample (w.prepend p) = .ok (w'.prepend p) := by
  have hp : (w.prepend p).wg = 0 := h
  cases sample with
  | error e =>
    rw [tick_error_eq] at hw ⊢
    cases hw
    simp [World.prepend]
  | ok memory =>
    cases hgt : F64.gt memory.UsedPercent config.OOMThreshold with
    | false =>
      rw [tick_below_eq env config memory _ hgt] at hw ⊢
      cases hw
      simp [World.prepend]
    | true =>
      rw [tick_above_eq env config memory _ hgt h] at hw
      rw [tick_above_eq env config memory _ hgt hp]
      cases hw
      simp [World.prepend]

theorem monitorLoop_shape (env : Env) (config : HelperConfig) :
    ∀ (ticks : List (Except String VirtualMemoryStat)) (w : World), w.wg = 0 →
      ∃ w', monitorLoop env config ticks w = .ok w' ∧ w'.wg = 0 ∧
        ∃ evs, w'.trace = w.trace ++ evs ∧ LoopShape config ticks evs := by
  intro ticks
  induction ticks with
  | nil => intro w h; exact ⟨w, rfl, h, [], by simp, rfl⟩
  | cons sample rest ih =>
    intro w h
    obtain ⟨w1, hw1, hwg1, e1, ht1, hs1⟩ := tick_shape env config sample w h
    obtain ⟨w2, hw2, hwg2, e2, ht2, hs2⟩ := ih w1 hwg1
    refine ⟨w2, ?_, hwg2, e1 ++ e2, ?_, e1, e2, rfl, hs1, hs2⟩
    · simp [monitorLoop, hw1, hw2, bind, Except.bind]
    · rw [ht2, ht1, List.append_assoc]

theorem monitorLoop_frame (env : Env) (config : HelperConfig) :
    ∀ (ticks : List (Except String VirtualMemoryStat)) (w w' : World) (p : List Event),
      w.wg = 0 → monitorLoop env config ticks w = .ok w' →
      monitorLoop env config ticks (w.prepend p) = .ok (w'.prepend p) := by
  intro ticks
  induction ticks with
  | nil =>
    intro w w' p _ hw
    simp only [monitorLoop] at hw ⊢
    cases hw
    rfl
  | cons sample rest ih =>
    intro w w' p h hw
    obtain ⟨w1, hw1, hwg1, -⟩ := tick_shape env config sample w h
    simp only [monitorLoop, hw1, bind, Except.bind] at hw
    simp only [monitorLoop, tick_frame env config sample w w1 p h hw1, bind, Except.bind]
    exact ih w1 w' p hwg1 hw

theorem monitorLoop_append (env : Env) (config : HelperConfig) :
    ∀ (a b : List (Except String VirtualMemoryStat)) (w : World),
      monitorLoop env config (a ++ b) w =
        (monitorLoop env config a w).bind (monitorLoop env config b) := by
  intro a
  induction a with
  | nil => intro b w; rfl
  | cons sample rest ih =>
    intro b w
    simp only [List.cons_append, monitorLoop, bind]
    cases tick env config sample w with
    | error e => rfl
    | ok w1 => simpa [Except.bind] using ih b w1

theorem monitorMemoryUsage_eq (env : Env) (config : HelperConfig)
    (ticks : List (Except String VirtualMemoryStat)) (w : World)
    (hp : 0 < tickerPeriod config) :
    monitorMemoryUsage env config ticks w = monitorLoop env config ticks { w with wg := 0 } := by
  have : ¬ tickerPeriod config ≤ 0 := by omega
  simp [monitorMemoryUsage, this]

/-! ## Lemmas on the observations -/

theorem F64.gt_eq_false_of_le (a b : F64) (h : F64.le a b = true) : F64.gt a b = false := by
  cases a <;> cases b <;> simp_all [F64.le, F64.gt]

theorem cycleStarts_append (a b : List Event) :
    cycleStarts (a ++ b) = cycleStarts a + cycleStarts b := by
  simp [cycleStarts]

theorem cycleStarts_countdownEvents (n : Nat) : cycleStarts (countdownEvents n) = 0 := by
  induction n with
  | zero => rfl
  | succ n ih =>
    simp only [cycleStarts] at ih
    simp [cycleStarts, countdownEvents, List.count_cons, ih]

theorem cycleStarts_cycleEvents (config : HelperConfig) (now : Nat → Time)
    (err : Option String) : cycleStarts (cycleEvents config now err) = 1 := by
  have hc := cycleStarts_countdownEvents config.RebootSeconds.toNat
  simp only [cycleStarts] at hc
  cases err <;>
    simp [cycleStarts, cycleEvents, notifyEvents, rebootEvents, afterScriptEvents, stamp,
      List.count_cons, hc]

theorem cycleStarts_tickEvents (config : HelperConfig) (now : Nat → Time)
    (err : Option String) (sample : Except String VirtualMemoryStat) :
    cycleStarts (tickEvents config now err sample) =
      if aboveThreshold config sample then 1 else 0 := by
  cases sample with
  | error e => simp [cycleStarts, tickEvents, aboveThreshold, List.count_cons]
  | ok memory =>
    have hc := cycleStarts_cycleEvents config (fun k => now (1 + k)) err
    simp only [cycleStarts] at hc
    cases hgt : F64.gt memory.UsedPercent config.OOMThreshold <;>
      simp [cycleStarts, tickEvents, aboveThreshold, stamp, List.count_cons, hgt, hc]

theorem cycleStarts_loopShape (config : HelperConfig) :
    ∀ (ticks : List (Except String VirtualMemoryStat)) (evs : List Event),
      LoopShape config ticks evs → cycleStarts evs = ticks.countP (aboveThreshold config) := by
  intro ticks
  induction ticks with
  | nil => intro evs h; simp only [LoopShape] at h; subst h; rfl
  | cons sample rest ih =>
    intro evs h
    obtain ⟨e1, e2, rfl, ⟨now, err, rfl⟩, h2⟩ := h
    rw [cycleStarts_append, cycleStarts_tickEvents, ih e2 h2, List.countP_cons]
    cases aboveThreshold config sample <;> simp [Nat.add_comm]

theorem broadcasts_append (a b : List Event) :
    broadcasts (a ++ b) = broadcasts a ++ broadcasts b := by
  induction a with
  | nil => rfl
  | cons e a ih => cases e <;> simp [broadcasts, ih]

theorem waits_append (a b : List Event) : waits (a ++ b) = waits a ++ waits b := by
  induction a with
  | nil => rfl
  | cons e a ih => cases e <;> simp [waits, ih]

theorem lines_append (a b : List Event) : lines (a ++ b) = lines a ++ lines b := by
  induction a with
  | nil => rfl
  | cons e a ih => cases e <;> simp [lines, ih]

theorem collab_append (a b : List Event) : collab (a ++ b) = collab a ++ collab b := by
  simp [collab]

theorem countdownCounts_succ (n : Nat) :
    countdownCounts ((n + 1 : Nat) : Int) = ((n + 1 : Nat) : Int) :: countdownCounts (n : Int) := by
  simp only [countdownCounts, Int.toNat_ofNat, List.range_succ_eq_map, List.map_cons,
    List.map_map]
  refine congrArg₂ _ (by simp) (List.map_congr_left ?_)
  intro i _
  simp only [Function.comp, Nat.succ_eq_add_one]
  push_cast
  omega

theorem countdownEvents_eq (n : Nat) :
    countdownEvents n = (countdownCounts (n : Int)).flatMap
      (fun k => [.clientBroadcast ("OOM_server_reboot_in_" ++ Itoa k ++ "s"), .sleep Second]) := by
  induction n with
  | zero => simp [countdownEvents, countdownCounts]
  | succ n ih =>
    rw [countdownCounts_succ, List.flatMap_cons, ← ih]
    simp [countdownEvents, countdownMessage]

theorem collab_countdownEvents (n : Nat) : collab (countdownEvents n) = countdownEvents n := by
  induction n with
  | zero => rfl
  | succ n ih =>
    simp only [collab] at ih
    simp [collab, countdownEvents, isCollab, ih]

theorem broadcasts_countdownEvents (n : Nat) :
    broadcasts (countdownEvents n) =
      (countdownCounts (n : Int)).map (fun k => "OOM_server_reboot_in_" ++ Itoa k ++ "s") := by
  induction n with
  | zero => simp [countdownEvents, countdownCounts, broadcasts]
  | succ n ih =>
    rw [countdownCounts_succ]
    simp [countdownEvents, broadcasts, ih, countdownMessage]

theorem waits_countdownEvents (n : Nat) :
    waits (countdownEvents n) = List.replicate n Second := by
  induction n with
  | zero => rfl
  | succ n ih => simp [countdownEvents, waits, ih, List.replicate_succ]

theorem countdownCounts_length (N : Int) : (countdownCounts N).length = N.toNat := by
  simp [countdownCounts]

theorem countdownCounts_pos (N k : Int) (hk : k ∈ countdownCounts N) : 1 ≤ k ∧ k ≤ N := by
  simp only [countdownCounts, List.mem_map, List.mem_range] at hk
  obtain ⟨i, hi, rfl⟩ := hk
  omega

theorem collab_notifyEvents (config : HelperConfig) (t : Time) :
    collab (notifyEvents config t) =
      .clientReboot (Itoa config.RebootSeconds) ::
        countdownEvents config.RebootSeconds.toNat := by
  have hc := collab_countdownEvents config.RebootSeconds.toNat
  simp only [collab] at hc
  simp [collab, notifyEvents, stamp, isCollab, hc]

theorem collab_rebootEvents (config : HelperConfig) (now : Nat → Time) (err : Option String) :
    collab (rebootEvents config now err) =
      [.clientClose, .sleep (10 * Second), .cmdRun "sh" [config.RebootScriptPath]] ++
        (match err with
          | none => [.clientClose, .sleep (2 * Minute)]
          | some _ => []) := by
  cases err <;> simp [collab, rebootEvents, afterScriptEvents, stamp, isCollab]

theorem waitedBefore_countdownEvents (p : Event → Bool)
    (hb : ∀ m, p (.clientBroadcast m) = false) (hs : ∀ d, p (.sleep d) = false)
    (n : Nat) (rest : List Event) :
    waitedBefore p (countdownEvents n ++ rest) = n * Second + waitedBefore p rest := by
  induction n with
  | zero => simp [countdownEvents]
  | succ n ih =>
    simp only [countdownEvents, List.cons_append]
    simp only [waitedBefore, hb, hs, Bool.false_eq_true, if_false, ih]
    push_cast
    ring

theorem broadcasts_length_countdownEvents (n : Nat) :
    (broadcasts (countdownEvents n)).length = n := by
  rw [broadcasts_countdownEvents, List.length_map, countdownCounts_length, Int.toNat_ofNat]

theorem cycleEvents_split (config : HelperConfig) (now : Nat → Time) (err : Option String) :
    cycleEvents config now err =
      .wgAdd 2 :: stamp (now 0) "Notify to reboot" ::
        .clientReboot (Itoa config.RebootSeconds) ::
          (countdownEvents config.RebootSeconds.toNat ++
            (.wgAdd (-1) :: (rebootEvents config (fun k => now (1 + k)) err ++ [.wgWait]))) := by
  simp [cycleEvents, notifyEvents]

theorem cmdRun_not_mem_countdownEvents (name : String) (args : List String) (n : Nat) :
    Event.cmdRun name args ∉ countdownEvents n := by
  induction n with
  | zero => simp [countdownEvents]
  | succ n ih => simp [countdownEvents, ih]

theorem notifyReboot_ok (env : Env) (config : HelperConfig) (w : World) (h : 1 ≤ w.wg) :
    ∃ w', notifyReboot env config w = .ok w' ∧ w'.wg = w.wg - 1 :=
  ⟨_, notifyReboot_eq env config w h, rfl⟩

theorem reboot_ok (env : Env) (config : HelperConfig) (w : World) (h : 1 ≤ w.wg) :
    ∃ w', reboot env config w = .ok w' ∧ w'.wg = w.wg - 1 :=
  ⟨_, reboot_eq env config w h, rfl⟩

theorem control_append (a b : List Event) : control (a ++ b) = control a ++ control b := by
  simp [control]

theorem control_countdownEvents (n : Nat) : control (countdownEvents n) = [] := by
  induction n with
  | zero => rfl
  | succ n ih =>
    simp only [control] at ih
    simp [control, countdownEvents, isControl, ih]

theorem control_cycleEvents (config : HelperConfig) (now : Nat → Time) (err : Option String) :
    control (cycleEvents config now err) = [.wgAdd 2, .wgAdd (-1), .wgAdd (-1), .wgWait] := by
  have hc := control_countdownEvents config.RebootSeconds.toNat
  simp only [control] at hc
  rw [cycleEvents_split]
  cases err <;>
    simp [control, List.filter_cons, isControl, stamp, rebootEvents, afterScriptEvents, hc]

theorem control_tickEvents (config : HelperConfig) (now : Nat → Time) (err : Option String)
    (sample : Except String VirtualMemoryStat) :
    control (tickEvents config now err sample) =
      .memRead :: (if aboveThreshold config sample then
        [.wgAdd 2, .wgAdd (-1), .wgAdd (-1), .wgWait] else []) := by
  cases sample with
  | error e => simp [control, tickEvents, aboveThreshold, isControl]
  | ok memory =>
    have hc := control_cycleEvents config (fun k => now (1 + k)) err
    simp only [control] at hc
    cases hgt : F64.gt memory.UsedPercent config.OOMThreshold <;>
      simp [control, tickEvents, aboveThreshold, stamp, isControl, hgt, hc]

theorem control_loopShape (config : HelperConfig) :
    ∀ (ticks : List (Except String VirtualMemoryStat)) (evs : List Event),
      LoopShape config ticks evs →
      control evs = ticks.flatMap (fun sample =>
        .memRead :: (if aboveThreshold config sample then
          [.wgAdd 2, .wgAdd (-1), .wgAdd (-1), .wgWait] else [])) := by
  intro ticks
  induction ticks with
  | nil => intro evs h; simp only [LoopShape] at h; subst h; rfl
  | cons sample rest ih =>
    intro evs h
    obtain ⟨e1, e2, rfl, ⟨now, err, rfl⟩, h2⟩ := h
    rw [control_append, control_tickEvents, ih e2 h2, List.flatMap_cons]

theorem wgHistory_control (evs : List Event) :
    ∀ c : Int, wgHistory c evs = wgHistory c (control evs) := by
  induction evs with
  | nil => intro c; rfl
  | cons e evs ih =>
    intro c
    simp only [control] at ih
    cases e <;> simp [wgHistory, control, List.filter_cons, isControl, ih]

theorem wgHistory_ticks (config : HelperConfig) :
    ∀ ticks : List (Except String VirtualMemoryStat),
      wgHistory 0 (ticks.flatMap (fun sample =>
        .memRead :: (if aboveThreshold config sample then
          [.wgAdd 2, .wgAdd (-1), .wgAdd (-1), .wgWait] else []))) =
      ticks.flatMap (fun sample => if aboveThreshold config sample then [2, 1, 0] else []) := by
  intro ticks
  induction ticks with
  | nil => rfl
  | cons sample rest ih =>
    rw [List.flatMap_cons, List.flatMap_cons]
    cases aboveThreshold config sample <;> simp [wgHistory, ih]

theorem digitChar_ne_F : ∀ k, k < 10 → Nat.digitChar k ≠ 'F' := by
  decide

theorem not_isLogLine_of_head (line : String) (h : line.data.head? = some 'F') :
    ¬ IsLogLine line := by
  rintro ⟨t, message, rfl⟩
  simp only [Time.format, pad4, String.data_append, List.cons_append, List.head?_cons,
    Option.some.injEq] at h
  exact digitChar_ne_F _ (Nat.mod_lt _ (by decide)) h

theorem not_isLogLine_of_isFailureLine (line : String) (h : IsFailureLine line) :
    ¬ IsLogLine line := by
  apply not_isLogLine_of_head
  rcases h with ⟨e, rfl⟩ | ⟨e, rfl⟩ <;> simp [String.data_append]

theorem isOutputLine_stamp (t : Time) (message : String) :
    IsOutputLine (t.format ++ ": " ++ message) :=
  Or.inl ⟨t, message, rfl⟩

theorem isOutputLine_memory (e : String) : IsOutputLine ("Failed to get memory info: " ++ e) :=
  Or.inr (Or.inl ⟨e, rfl⟩)

theorem isOutputLine_script (e : String) :
    IsOutputLine ("Failed to execute reboot script: " ++ e) :=
  Or.inr (Or.inr ⟨e, rfl⟩)

theorem lines_countdownEvents (n : Nat) : lines (countdownEvents n) = [] := by
  induction n with
  | zero => rfl
  | succ n ih => simp [countdownEvents, lines, ih]

theorem lines_cycleEvents (config : HelperConfig) (now : Nat → Time) (err : Option String) :
    ∀ line ∈ lines (cycleEvents config now err), IsOutputLine line := by
  rw [cycleEvents_split]
  cases err <;>
    simp only [lines, lines_append, lines_countdownEvents, stamp, rebootEvents,
      afterScriptEvents, List.cons_append, List.nil_append, List.forall_mem_cons,
      List.not_mem_nil, false_imp_iff, implies_true, and_true, isOutputLine_stamp,
      isOutputLine_script, and_self]

theorem lines_tickEvents (config : HelperConfig) (now : Nat → Time) (err : Option String)
    (sample : Except String VirtualMemoryStat) :
    ∀ line ∈ lines (tickEvents config now err sample), IsOutputLine line := by
  cases sample with
  | error e =>
    simp only [tickEvents, lines, List.forall_mem_cons, List.not_mem_nil, false_imp_iff,
      implies_true, and_true, isOutputLine_memory]
  | ok memory =>
    intro line hl
    simp only [tickEvents, lines, stamp, List.mem_cons] at hl
    rcases hl with rfl | hl
    · exact isOutputLine_stamp _ _
    · split at hl
      · exact lines_cycleEvents config _ err line hl
      · simp [lines] at hl

theorem lines_loopShape (config : HelperConfig) :
    ∀ (ticks : List (Except String VirtualMemoryStat)) (evs : List Event),
      LoopShape config ticks evs → ∀ line ∈ lines evs, IsOutputLine line := by
  intro ticks
  induction ticks with
  | nil => intro evs h; simp only [LoopShape] at h; subst h; simp [lines]
  | cons sample rest ih =>
    intro evs h line hl
    obtain ⟨e1, e2, rfl, ⟨now, err, rfl⟩, h2⟩ := h
    rw [lines_append, List.mem_append] at hl
    rcases hl with hl | hl
    · exact lines_tickEvents config now err sample line hl
    · exact ih e2 h2 line hl

/-! ## The text of the output -/

theorem renderWrites_append (now : Nat → Time) (a : List Written) :
    ∀ (k : Nat) (b : List Written), renderWrites now k (a ++ b) =
      renderWrites now k a ++ renderWrites now (k + loggedCount a) b := by
  induction a with
  | nil => intro k b; rfl
  | cons x a ih =>
    intro k b
    cases x with
    | logged m =>
      rw [List.cons_append]
      simp only [renderWrites, loggedCount]
      rw [ih, List.cons_append, Nat.add_assoc, Nat.add_comm 1]
    | direct t =>
      rw [List.cons_append]
      simp only [renderWrites, loggedCount]
      rw [ih, List.cons_append]

theorem lines_tickEvents_eq (config : HelperConfig) (now : Nat → Time) (b : Nat)
    (err : Option String) (sample : Except String VirtualMemoryStat) :
    lines (tickEvents config (fun k => now (b + k)) err sample) =
      renderWrites now b (tickWrites config err sample) := by
  cases sample with
  | error e => simp [tickEvents, tickWrites, lines, renderWrites]
  | ok memory =>
    cases hgt : F64.gt memory.UsedPercent config.OOMThreshold with
    | false => simp [tickEvents, tickWrites, lines, renderWrites, hgt, stamp, usageMessage]
    | true =>
      cases err <;>
        simp [tickEvents, tickWrites, cycleWrites, cycleEvents_split, lines, lines_append,
          lines_countdownEvents, renderWrites, hgt, stamp, usageMessage, rebootEvents,
          afterScriptEvents, Nat.add_assoc]

theorem tick_writes (env : Env) (config : HelperConfig)
    (sample : Except String VirtualMemoryStat) (w : World) (h : w.wg = 0) :
    ∃ w', tick env config sample w = .ok w' ∧ w'.wg = 0 ∧
      w'.nowCalls = w.nowCalls + loggedCount (tickWrites config (env.run w.runCalls) sample) ∧
      w'.runCalls = (if aboveThreshold config sample then w.runCalls + 1 else w.runCalls) ∧
      ∃ evs, w'.trace = w.trace ++ evs ∧
        lines evs = renderWrites env.now w.nowCalls
          (tickWrites config (env.run w.runCalls) sample) := by
  cases sample with
  | error e =>
    exact ⟨_, tick_error_eq env config e w, h, rfl, rfl, _, rfl, lines_tickEvents_eq _ _ _ _ _⟩
  | ok memory =>
    cases hgt : F64.gt memory.UsedPercent config.OOMThreshold with
    | false =>
      refine ⟨_, tick_below_eq env config memory w hgt, h, ?_, ?_, _, rfl,
        lines_tickEvents_eq _ _ _ _ _⟩
      · simp [tickWrites, hgt, loggedCount]
      · simp [aboveThreshold, hgt]
    | true =>
      refine ⟨_, tick_above_eq env config memory w hgt h, rfl, ?_, ?_, _, rfl,
        lines_tickEvents_eq _ _ _ _ _⟩
      · cases env.run w.runCalls <;>
          simp [tickWrites, cycleWrites, hgt, loggedCount, rebootLogs, Nat.add_assoc]
      · simp [aboveThreshold, hgt]

theorem monitorLoop_writes (env : Env) (config : HelperConfig) :
    ∀ (ticks : List (Except String VirtualMemoryStat)) (w : World), w.wg = 0 →
      ∃ w', monitorLoop env config ticks w = .ok w' ∧
        ∃ evs, w'.trace = w.trace ++ evs ∧
          lines evs = renderWrites env.now w.nowCalls
            (loopWrites config env.run w.runCalls ticks) := by
  intro ticks
  induction ticks with
  | nil => intro w _; exact ⟨w, rfl, [], by simp, rfl⟩
  | cons sample rest ih =>
    intro w h
    obtain ⟨w1, hw1, hwg1, hnow, hrun, e1, ht1, hl1⟩ := tick_writes env config sample w h
    obtain ⟨w2, hw2, e2, ht2, hl2⟩ := ih w1 hwg1
    refine ⟨w2, ?_, e1 ++ e2, ?_, ?_⟩
    · simp [monitorLoop, hw1, hw2, bind, Except.bind]
    · rw [ht2, ht1, List.append_assoc]
    · rw [lines_append, hl1, hl2, hnow, hrun, loopWrites, renderWrites_append]

theorem physLines_of_line (l : List Char) (h : '\n' ∉ l) (rest : List Char) :
    physLines (l ++ '\n' :: rest) = l :: physLines rest := by
  induction l with
  | nil => simp [physLines]
  | cons c l ih =>
    have hc : c ≠ '\n' := fun hc => h (by simp [hc])
    have hl : '\n' ∉ l := fun hl => h (by simp [hl])
    rw [List.cons_append]
    simp only [physLines, hc, if_false, ih hl]

theorem physLines_newline_ne_nil (a : List Char) : physLines (a ++ ['\n']) ≠ [] := by
  cases a with
  | nil => simp [physLines]
  | cons c a =>
    rw [List.cons_append]
    simp only [physLines]
    split
    · simp
    · split <;> simp

theorem physLines_append_newline (a : List Char) :
    ∀ rest : List Char,
      physLines (a ++ '\n' :: rest) = physLines (a ++ ['\n']) ++ physLines rest := by
  induction a with
  | nil => intro rest; simp [physLines]
  | cons c a ih =>
    intro rest
    have hne := physLines_newline_ne_nil a
    rw [List.cons_append, List.cons_append]
    simp only [physLines]
    rw [ih rest]
    split
    · simp
    · cases hp : physLines (a ++ ['\n']) with
      | nil => exact absurd hp hne
      | cons l ls => simp

theorem physLines_stdout (evs : List Event) :
    physLines (stdout evs) =
      (lines evs).flatMap (fun line => physLines (line.data ++ ['\n'])) := by
  simp only [stdout]
  induction lines evs with
  | nil => rfl
  | cons line rest ih =>
    rw [List.flatMap_cons, List.flatMap_cons, List.append_assoc, List.singleton_append,
      physLines_append_newline, ih]

theorem digitChar_ne_newline : ∀ k, k < 10 → Nat.digitChar k ≠ '\n' := by
  decide

theorem newline_not_mem_pad2 (n : Nat) : '\n' ∉ pad2 n := by
  intro h
  simp only [pad2, List.mem_cons, List.mem_singleton, List.not_mem_nil, or_false] at h
  rcases h with h | h
  · exact digitChar_ne_newline _ (Nat.mod_lt _ (by decide)) h.symm
  · exact digitChar_ne_newline _ (Nat.mod_lt _ (by decide)) h.symm

theorem newline_not_mem_pad4 (n : Nat) : '\n' ∉ pad4 n := by
  intro h
  simp only [pad4, List.mem_cons, List.mem_singleton, List.not_mem_nil, or_false] at h
  rcases h with h | h | h | h <;>
    exact digitChar_ne_newline _ (Nat.mod_lt _ (by decide)) h.symm

theorem newline_not_mem_format (t : Time) : '\n' ∉ t.format.data := by
  have h2 := newline_not_mem_pad2
  have h4 := newline_not_mem_pad4 t.year
  simp [Time.format, h4, h2]

theorem newline_not_mem_toDigitsCore :
    ∀ (fuel n : Nat) (ds : List Char), '\n' ∉ ds → '\n' ∉ Nat.toDigitsCore 10 fuel n ds := by
  intro fuel
  induction fuel with
  | zero => intro n ds h; simpa [Nat.toDigitsCore] using h
  | succ fuel ih =>
    intro n ds h
    have hd : '\n' ∉ Nat.digitChar (n % 10) :: ds := by
      intro hm
      rcases List.mem_cons.mp hm with hm | hm
      · exact digitChar_ne_newline _ (Nat.mod_lt _ (by decide)) hm.symm
      · exact h hm
    simp only [Nat.toDigitsCore]
    split
    · exact hd
    · exact ih _ _ hd

theorem newline_not_mem_repr (n : Nat) : '\n' ∉ (toString n).data := by
  show '\n' ∉ (Nat.repr n).data
  simp only [Nat.repr, Nat.toDigits, List.asString]
  exact newline_not_mem_toDigitsCore _ _ _ (by simp)

theorem newline_not_mem_fmt2f (p : F64) : '\n' ∉ (fmt2f p).data := by
  cases p with
  | nan => decide
  | negInf => decide
  | posInf => decide
  | negZero => decide
  | fin q =>
    simp only [fmt2f, String.data_append, List.mem_append, not_or]
    refine ⟨⟨⟨?_, newline_not_mem_repr _⟩, by decide⟩, newline_not_mem_pad2 _⟩
    split <;> decide

theorem not_isLogLine_empty : ¬ IsLogLine "" := by
  rintro ⟨t, message, h⟩
  have := congrArg String.data h
  simp [Time.format, pad4, String.data_append] at this

theorem physLines_fixed (t : Time) (m : String)
    (hm : m ∈ ["Notify to reboot", "closing RCON client", "Waiting to restart...",
      "Rebooting...", "Reboot script executed successfully",
      "Waiting for service to restart...", "Service restarted"]) :
    physLines ((t.format ++ ": " ++ m).data ++ ['\n']) = [(t.format ++ ": " ++ m).data] := by
  have hn : '\n' ∉ (t.format ++ ": " ++ m).data := by
    simp only [String.data_append, List.mem_append, not_or]
    refine ⟨⟨newline_not_mem_format t, by decide⟩, ?_⟩
    simp only [List.mem_cons, List.mem_singleton, List.not_mem_nil, or_false] at hm
    rcases hm with rfl | rfl | rfl | rfl | rfl | rfl | rfl <;> decide
  rw [physLines_of_line _ hn]
  rfl

theorem physLines_usage (t : Time) (p : F64) :
    physLines ((t.format ++ ": " ++ ("Current memory usage: " ++ fmt2f p ++ "%\n")).data ++
        ['\n']) =
      [(t.format ++ ": " ++ ("Current memory usage: " ++ fmt2f p ++ "%")).data, []] := by
  have hn : '\n' ∉ (t.format ++ ": " ++ ("Current memory usage: " ++ fmt2f p ++ "%")).data := by
    simp only [String.data_append, List.mem_append, not_or]
    exact ⟨⟨newline_not_mem_format t, by decide⟩,
      ⟨by decide, newline_not_mem_fmt2f p⟩, by decide⟩
  have hsplit : (t.format ++ ": " ++ ("Current memory usage: " ++ fmt2f p ++ "%\n")).data ++
      ['\n'] =
      (t.format ++ ": " ++ ("Current memory usage: " ++ fmt2f p ++ "%")).data ++
        '\n' :: ['\n'] := by
    simp [String.data_append]
  rw [hsplit, physLines_of_line _ hn]
  rfl

/-! ## The claims -/

/-- C1: over a sequence of ticks whose memory read succeeds, the number of
reboot cycles `monitorMemoryUsage` starts is the number of samples strictly
above `OOMThreshold`; and at each tick of the sequence, the events the tick
adds contain one cycle start when its sample is strictly above the threshold
and none otherwise, in particular none when the sample is below or equal to
it. -/
theorem cycle_started_iff_above_threshold (env : Env) (config : HelperConfig) (w : World)
    (hp : 0 < tickerPeriod config) (samples : List VirtualMemoryStat) :
    (∃ w' evs, monitorMemoryUsage env config (samples.map Except.ok) w = .ok w' ∧
      w'.trace = w.trace ++ evs ∧
      cycleStarts evs =
        samples.countP (fun m => F64.gt m.UsedPercent config.OOMThreshold)) ∧
    (∀ pre m post, samples = pre ++ m :: post →
      ∃ w1 w2 evs, monitorMemoryUsage env config (pre.map Except.ok) w = .ok w1 ∧
        monitorMemoryUsage env config ((pre ++ [m]).map Except.ok) w = .ok w2 ∧
        w2.trace = w1.trace ++ evs ∧
        cycleStarts evs = (if F64.gt m.UsedPercent config.OOMThreshold then 1 else 0) ∧
        (F64.le m.UsedPercent config.OOMThreshold = true → cycleStarts evs = 0)) := by
  constructor
  · obtain ⟨w', hw', -, evs, ht, hs⟩ :=
      monitorLoop_shape env config (samples.map Except.ok) { w with wg := 0 } rfl
    refine ⟨w', evs, by rw [monitorMemoryUsage_eq env config _ w hp, hw'], ht, ?_⟩
    rw [cycleStarts_loopShape config _ evs hs, List.countP_map]
    rfl
  · intro pre m post _
    obtain ⟨w1, hw1, hwg1, -⟩ :=
      monitorLoop_shape env config (pre.map Except.ok) { w with wg := 0 } rfl
    obtain ⟨w2, hw2, -, evs, ht, now, err, hs⟩ := tick_shape env config (.ok m) w1 hwg1
    refine ⟨w1, w2, evs, by rw [monitorMemoryUsage_eq env config _ w hp, hw1], ?_, ht, ?_, ?_⟩
    · rw [monitorMemoryUsage_eq env config _ w hp, List.map_append, monitorLoop_append, hw1]
      simp [Except.bind, monitorLoop, hw2, bind]
    · rw [hs, cycleStarts_tickEvents]
      rfl
    · intro hle
      rw [hs, cycleStarts_tickEvents]
      simp [aboveThreshold, F64.gt_eq_false_of_le _ _ hle]

/-- C1 on the sample configuration, for the samples 85 and 92.3. -/
theorem cycle_started_iff_above_threshold_witness :
    0 < tickerPeriod sampleConfig ∧
    ∃ w' evs, monitorMemoryUsage sampleEnv sampleConfig
        ([⟨.fin 85⟩, ⟨.fin (923 / 10)⟩].map Except.ok) World.init = .ok w' ∧
      w'.trace = World.init.trace ++ evs ∧
      cycleStarts evs = [(⟨.fin 85⟩ : VirtualMemoryStat), ⟨.fin (923 / 10)⟩].countP
        (fun m => F64.gt m.UsedPercent sampleConfig.OOMThreshold) :=
  ⟨by decide,
   (cycle_started_iff_above_threshold sampleEnv sampleConfig World.init (by decide)
      [⟨.fin 85⟩, ⟨.fin (923 / 10)⟩]).1⟩

/-- C2: for `rebootSeconds = N ≥ 0`, `notifyReboot` sends the reboot command
carrying the decimal rendering of `N`, then, for the counts `N`, `N - 1`, ...,
`1` in this order, broadcasts `OOM_server_reboot_in_<count>s` and waits one
second; there are exactly `N` broadcasts, every count is at least 1, and the
sequence is the same whatever the console calls answer. -/
theorem notifyReboot_countdown (env : Env) (config : HelperConfig) (w : World)
    (hN : 0 ≤ config.RebootSeconds) (hwg : 1 ≤ w.wg) :
    ∃ w' evs, notifyReboot env config w = .ok w' ∧ w'.trace = w.trace ++ evs ∧
      collab evs = .clientReboot (Itoa config.RebootSeconds) ::
        (countdownCounts config.RebootSeconds).flatMap
          (fun k => [.clientBroadcast ("OOM_server_reboot_in_" ++ Itoa k ++ "s"),
                     .sleep Second]) ∧
      ((broadcasts evs).length : Int) = config.RebootSeconds ∧
      (∀ k ∈ countdownCounts config.RebootSeconds, 1 ≤ k) ∧
      (∀ env', ∃ w'' evs', notifyReboot env' config w = .ok w'' ∧
        w''.trace = w.trace ++ evs' ∧ collab evs' = collab evs) := by
  have hcast : ((config.RebootSeconds.toNat : Nat) : Int) = config.RebootSeconds :=
    Int.toNat_of_nonneg hN
  refine ⟨_, _, notifyReboot_eq env config w hwg, rfl, ?_, ?_, ?_, ?_⟩
  · rw [collab_notifyEvents, countdownEvents_eq, hcast]
  · simp only [notifyEvents, stamp, broadcasts, broadcasts_append, broadcasts_countdownEvents,
      List.append_nil, List.length_map, countdownCounts_length]
    omega
  · intro k hk
    exact (countdownCounts_pos _ k hk).1
  · intro env'
    refine ⟨_, _, notifyReboot_eq env' config w hwg, rfl, ?_⟩
    rw [collab_notifyEvents, collab_notifyEvents]

/-- C2 on the sample configuration, whose countdown is three seconds. -/
theorem notifyReboot_countdown_witness :
    (0 : Int) ≤ sampleConfig.RebootSeconds ∧ (1 : Int) ≤ pendingWorld.wg ∧
    ∃ w' evs, notifyReboot sampleEnv sampleConfig pendingWorld = .ok w' ∧
      w'.trace = pendingWorld.trace ++ evs ∧
      collab evs = .clientReboot (Itoa sampleConfig.RebootSeconds) ::
        (countdownCounts sampleConfig.RebootSeconds).flatMap
          (fun k => [.clientBroadcast ("OOM_server_reboot_in_" ++ Itoa k ++ "s"),
                     .sleep Second]) ∧
      ((broadcasts evs).length : Int) = sampleConfig.RebootSeconds ∧
      (∀ k ∈ countdownCounts sampleConfig.RebootSeconds, 1 ≤ k) ∧
      (∀ env', ∃ w'' evs', notifyReboot env' sampleConfig pendingWorld = .ok w'' ∧
        w''.trace = pendingWorld.trace ++ evs' ∧ collab evs' = collab evs) :=
  ⟨by decide, by decide,
   notifyReboot_countdown sampleEnv sampleConfig pendingWorld (by decide) (by decide)⟩

/-- C3: `reboot` closes the connection, waits 10 seconds and runs
`sh <RebootScriptPath>` once; when the run succeeds it then closes the
connection again and waits 120 seconds, and when the run fails it does nothing
more to the collaborators. -/
theorem reboot_effects (env : Env) (config : HelperConfig) (w : World) (hwg : 1 ≤ w.wg) :
    ∃ w' evs, reboot env config w = .ok w' ∧ w'.trace = w.trace ++ evs ∧
      collab evs =
        [.clientClose, .sleep (10 * Second), .cmdRun "sh" [config.RebootScriptPath]] ++
          (match env.run w.runCalls with
            | none => [.clientClose, .sleep (2 * Minute)]
            | some _ => []) ∧
      2 * Minute = 120 * Second :=
  ⟨_, _, reboot_eq env config w hwg, rfl, collab_rebootEvents config _ _, by decide⟩

/-- C3 on the sample configuration, with a script whose run fails. -/
theorem reboot_effects_witness :
    (1 : Int) ≤ pendingWorld.wg ∧
    ∃ w' evs, reboot sampleEnv sampleConfig pendingWorld = .ok w' ∧
      w'.trace = pendingWorld.trace ++ evs ∧
      collab evs =
        [.clientClose, .sleep (10 * Second), .cmdRun "sh" [sampleConfig.RebootScriptPath]] ++
          (match sampleEnv.run pendingWorld.runCalls with
            | none => [.clientClose, .sleep (2 * Minute)]
            | some _ => []) ∧
      2 * Minute = 120 * Second :=
  ⟨by decide, reboot_effects sampleEnv sampleConfig pendingWorld (by decide)⟩

/-- C4: whatever the collaborators answer, a reboot cycle raises the join
counter from 0 to 2, `notifyReboot` runs to its end and lowers it to 1,
`reboot` runs to its end and lowers it to 0, and only then does `wg.Wait()`
return and the cycle with it.  In a run of `monitorMemoryUsage` every cycle
therefore shows as `Add(2)`, `Done`, `Done`, `Wait` between the memory read of
its tick and the memory read of the next one; the counter takes the values
2, 1, 0 in each cycle, is never negative, and is 0 at the end. -/
theorem cycle_joins_both_phases (env : Env) (config : HelperConfig) (w : World)
    (hp : 0 < tickerPeriod config) (ticks : List (Except String VirtualMemoryStat)) :
    (∀ w0 : World, w0.wg = 0 →
      ∃ w1 w2 w3 w4, wgAdd 2 w0 = .ok w1 ∧ w1.wg = 2 ∧
        notifyReboot env config w1 = .ok w2 ∧ w2.wg = 1 ∧
        reboot env config w2 = .ok w3 ∧ w3.wg = 0 ∧
        wgWait w3 = .ok w4 ∧ w4.wg = 0 ∧
        rebootCycle env config w0 = .ok w4) ∧
    (∃ w' evs, monitorMemoryUsage env config ticks w = .ok w' ∧ w'.trace = w.trace ++ evs ∧
      w'.wg = 0 ∧
      control evs = ticks.flatMap (fun sample =>
        .memRead :: (if aboveThreshold config sample then
          [.wgAdd 2, .wgAdd (-1), .wgAdd (-1), .wgWait] else [])) ∧
      wgHistory 0 evs =
        ticks.flatMap (fun sample => if aboveThreshold config sample then [2, 1, 0] else []) ∧
      (∀ c ∈ wgHistory 0 evs, 0 ≤ c)) := by
  constructor
  · intro w0 hw0
    have h1 : wgAdd 2 w0 = .ok (emit (.wgAdd 2) { w0 with wg := 2 }) := by
      simp [wgAdd, hw0]
    have hwg1 : (emit (.wgAdd 2) { w0 with wg := 2 }).wg = 2 := rfl
    obtain ⟨w2, h2, hwg2⟩ := notifyReboot_ok env config (emit (.wgAdd 2) { w0 with wg := 2 })
      (by rw [hwg1]; decide)
    rw [hwg1] at hwg2
    obtain ⟨w3, h3, hwg3⟩ := reboot_ok env config w2 (by omega)
    rw [hwg2] at hwg3
    have h4 : wgWait w3 = .ok (emit .wgWait w3) := by
      simp [wgWait, show w3.wg = 0 by omega]
    refine ⟨_, w2, w3, _, h1, hwg1, h2, by omega, h3, by omega, h4, ?_, ?_⟩
    · show w3.wg = 0
      omega
    · simp only [rebootCycle, h1, h2, h3, bind, Except.bind]
      exact h4
  · obtain ⟨w', hw', hwg', evs, ht, hs⟩ :=
      monitorLoop_shape env config ticks { w with wg := 0 } rfl
    have hcontrol := control_loopShape config ticks evs hs
    have hhist : wgHistory 0 evs =
        ticks.flatMap (fun sample => if aboveThreshold config sample then [2, 1, 0] else []) := by
      rw [wgHistory_control, hcontrol, wgHistory_ticks]
    refine ⟨w', evs, by rw [monitorMemoryUsage_eq env config _ w hp, hw'], ht, hwg', hcontrol,
      hhist, ?_⟩
    intro c hc
    rw [hhist, List.mem_flatMap] at hc
    obtain ⟨sample, -, hc⟩ := hc
    cases habove : aboveThreshold config sample
    · simp [habove] at hc
    · simp only [habove, if_true, List.mem_cons, List.mem_singleton, List.not_mem_nil,
        or_false] at hc
      rcases hc with rfl | rfl | rfl <;> decide

/-- C4 on the sample configuration, for four ticks of which two start a cycle. -/
theorem cycle_joins_both_phases_witness :
    0 < tickerPeriod sampleConfig ∧
    ∃ w' evs, monitorMemoryUsage sampleEnv sampleConfig
        [.ok ⟨.fin 85⟩, .ok ⟨.fin 95⟩, .error "boom", .ok ⟨.fin 97⟩] World.init = .ok w' ∧
      w'.trace = World.init.trace ++ evs ∧ w'.wg = 0 ∧
      control evs =
        [.memRead,
         .memRead, .wgAdd 2, .wgAdd (-1), .wgAdd (-1), .wgWait,
         .memRead,
         .memRead, .wgAdd 2, .wgAdd (-1), .wgAdd (-1), .wgWait] ∧
      wgHistory 0 evs = [2, 1, 0, 2, 1, 0] ∧
      (∀ c ∈ wgHistory 0 evs, 0 ≤ c) :=
  ⟨by decide,
   (cycle_joins_both_phases sampleEnv sampleConfig World.init (by decide)
      [.ok ⟨.fin 85⟩, .ok ⟨.fin 95⟩, .error "boom", .ok ⟨.fin 97⟩]).2⟩

/-- C5: a tick whose memory read fails adds to the run exactly the read and
its error line; no cycle is started, nothing is sent to the remote console,
and the loop goes on: the run with the failed tick is the run without it, with
these two events inserted at the place of the tick. -/
theorem failed_read_is_skipped (env : Env) (config : HelperConfig) (w : World)
    (hp : 0 < tickerPeriod config) (pre post : List (Except String VirtualMemoryStat))
    (e : String) :
    ∃ w1 w2 tl, monitorMemoryUsage env config pre w = .ok w1 ∧
      monitorMemoryUsage env config (pre ++ post) w = .ok w2 ∧
      w2.trace = w1.trace ++ tl ∧
      monitorMemoryUsage env config (pre ++ .error e :: post) w =
        .ok { w2 with trace := w1.trace ++
                [.memRead, .println ("Failed to get memory info: " ++ e)] ++ tl } := by
  obtain ⟨w1, hw1, hwg1, -⟩ := monitorLoop_shape env config pre { w with wg := 0 } rfl
  obtain ⟨b, hb, -, -⟩ :=
    monitorLoop_shape env config post { w1 with trace := [] } hwg1
  have hfr := fun p => monitorLoop_frame env config post { w1 with trace := [] } b p hwg1 hb
  have h1 := hfr w1.trace
  have h2 := hfr (w1.trace ++ [.memRead, .println ("Failed to get memory info: " ++ e)])
  simp only [World.prepend, List.append_nil] at h1 h2
  refine ⟨w1, { b with trace := w1.trace ++ b.trace }, b.trace, ?_, ?_, rfl, ?_⟩
  · rw [monitorMemoryUsage_eq env config _ w hp, hw1]
  · rw [monitorMemoryUsage_eq env config _ w hp, monitorLoop_append, hw1]
    exact h1
  · rw [monitorMemoryUsage_eq env config _ w hp, monitorLoop_append, hw1]
    simp only [Except.bind, monitorLoop, tick_error_eq, tickEvents, bind]
    exact h2

/-- C5 on the sample configuration, for a failed read between two samples. -/
theorem failed_read_is_skipped_witness :
    0 < tickerPeriod sampleConfig ∧
    ∃ w1 w2 tl, monitorMemoryUsage sampleEnv sampleConfig [.ok ⟨.fin 85⟩] World.init = .ok w1 ∧
      monitorMemoryUsage sampleEnv sampleConfig ([.ok ⟨.fin 85⟩] ++ [.ok ⟨.fin 95⟩]) World.init =
        .ok w2 ∧
      w2.trace = w1.trace ++ tl ∧
      monitorMemoryUsage sampleEnv sampleConfig
          ([.ok ⟨.fin 85⟩] ++ .error "boom" :: [.ok ⟨.fin 95⟩]) World.init =
        .ok { w2 with trace := w1.trace ++
                [.memRead, .println ("Failed to get memory info: " ++ "boom")] ++ tl } :=
  ⟨by decide,
   failed_read_is_skipped sampleEnv sampleConfig World.init (by decide)
     [.ok ⟨.fin 85⟩] [.ok ⟨.fin 95⟩] "boom"⟩

/-- C6: in a reboot cycle, the reboot command carrying `N` and the whole
countdown, broadcast after broadcast, come before the one run of
`sh <RebootScriptPath>`: what the cycle does to the collaborators before the
run is the reboot command, the countdown, the closing of the connection and
the 10-second wait; no command is run before that and none after, and no
broadcast follows the run. -/
theorem script_after_countdown (env : Env) (config : HelperConfig) (w : World)
    (hwg : w.wg = 0) :
    ∃ w' pre post, rebootCycle env config w = .ok w' ∧
      w'.trace = w.trace ++ pre ++ .cmdRun "sh" [config.RebootScriptPath] :: post ∧
      collab pre = .clientReboot (Itoa config.RebootSeconds) ::
        ((countdownCounts config.RebootSeconds).flatMap
          (fun k => [.clientBroadcast ("OOM_server_reboot_in_" ++ Itoa k ++ "s"),
                     .sleep Second]) ++ [.clientClose, .sleep (10 * Second)]) ∧
      (broadcasts pre).length = config.RebootSeconds.toNat ∧
      (∀ name args, Event.cmdRun name args ∉ pre) ∧
      (∀ name args, Event.cmdRun name args ∉ post) ∧
      broadcasts post = [] := by
  have hcounts : countdownCounts ((config.RebootSeconds.toNat : Nat) : Int) =
      countdownCounts config.RebootSeconds := by
    rcases le_or_lt 0 config.RebootSeconds with h | h
    · rw [Int.toNat_of_nonneg h]
    · have h0 : config.RebootSeconds.toNat = 0 := by omega
      simp [countdownCounts, h0]
  refine ⟨_,
    .wgAdd 2 :: (notifyEvents config (env.now (w.nowCalls + 0)) ++
      [stamp (env.now (w.nowCalls + (1 + 0))) "closing RCON client", .clientClose,
       stamp (env.now (w.nowCalls + (1 + 1))) "Waiting to restart...", .sleep (10 * Second),
       stamp (env.now (w.nowCalls + (1 + 2))) "Rebooting..."]),
    afterScriptEvents (fun k => env.now (w.nowCalls + (1 + k))) (env.run w.runCalls) ++
      [.wgAdd (-1), .wgWait],
    rebootCycle_eq env config w hwg, ?_, ?_, ?_, ?_, ?_, ?_⟩
  · simp [cycleEvents, rebootEvents]
  · rw [show ∀ (e : Event) (l : List Event), collab (e :: l) = collab [e] ++ collab l from
      fun e l => collab_append [e] l, collab_append, collab_notifyEvents, countdownEvents_eq,
      hcounts]
    simp [collab, isCollab, stamp]
  · simp [notifyEvents, stamp, broadcasts, broadcasts_append, broadcasts_length_countdownEvents]
  · intro name args
    simp [notifyEvents, stamp, cmdRun_not_mem_countdownEvents]
  · intro name args
    cases env.run w.runCalls <;> simp [afterScriptEvents, stamp]
  · cases env.run w.runCalls <;> simp [afterScriptEvents, stamp, broadcasts]

/-- C6 on the sample configuration, from the initial world. -/
theorem script_after_countdown_witness :
    World.init.wg = 0 ∧
    ∃ w' pre post, rebootCycle sampleEnv sampleConfig World.init = .ok w' ∧
      w'.trace = World.init.trace ++ pre ++
        .cmdRun "sh" [sampleConfig.RebootScriptPath] :: post ∧
      collab pre = .clientReboot (Itoa sampleConfig.RebootSeconds) ::
        ((countdownCounts sampleConfig.RebootSeconds).flatMap
          (fun k => [.clientBroadcast ("OOM_server_reboot_in_" ++ Itoa k ++ "s"),
                     .sleep Second]) ++ [.clientClose, .sleep (10 * Second)]) ∧
      (broadcasts pre).length = sampleConfig.RebootSeconds.toNat ∧
      (∀ name args, Event.cmdRun name args ∉ pre) ∧
      (∀ name args, Event.cmdRun name args ∉ post) ∧
      broadcasts post = [] :=
  ⟨rfl, script_after_countdown sampleEnv sampleConfig World.init rfl⟩

/-- C7, as stated, fails: with a countdown of three seconds the first closing
of the connection comes after three seconds of waiting, not at once, and the
script is run after thirteen seconds of waiting, not ten. -/
theorem reboot_waits_for_countdown_counterexample :
    (rebootCycle sampleEnv sampleConfig World.init).map
        (fun w => (waitedBefore isClose w.trace, waitedBefore isCmdRun w.trace)) =
      .ok (3 * Second, 13 * Second) ∧
    3 * Second ≠ 0 ∧ 13 * Second ≠ 10 * Second :=
  ⟨rfl, by decide, by decide⟩

/-- C7, amended: the two phases of a cycle run one after the other, so that
the first closing of the connection comes after the `max(N, 0)` one-second
waits of the countdown, and the script is run after these waits and the
10-second grace period. -/
theorem reboot_follows_countdown (env : Env) (config : HelperConfig) (w : World)
    (hwg : w.wg = 0) :
    ∃ w' evs, rebootCycle env config w = .ok w' ∧ w'.trace = w.trace ++ evs ∧
      waitedBefore isClose evs = config.RebootSeconds.toNat * Second ∧
      waitedBefore isCmdRun evs = config.RebootSeconds.toNat * Second + 10 * Second := by
  refine ⟨_, _, rebootCycle_eq env config w hwg, rfl, ?_, ?_⟩
  · rw [cycleEvents_split]
    simp only [waitedBefore, stamp, isClose, Bool.false_eq_true, if_false]
    rw [waitedBefore_countdownEvents isClose (fun _ => rfl) (fun _ => rfl)]
    simp [waitedBefore, isClose, rebootEvents, stamp]
  · rw [cycleEvents_split]
    simp only [waitedBefore, stamp, isCmdRun, Bool.false_eq_true, if_false]
    rw [waitedBefore_countdownEvents isCmdRun (fun _ => rfl) (fun _ => rfl)]
    simp [waitedBefore, isCmdRun, rebootEvents, stamp]

/-- C7, amended, on the sample configuration, from the initial world. -/
theorem reboot_follows_countdown_witness :
    World.init.wg = 0 ∧
    ∃ w' evs, rebootCycle sampleEnv sampleConfig World.init = .ok w' ∧
      w'.trace = World.init.trace ++ evs ∧
      waitedBefore isClose evs = sampleConfig.RebootSeconds.toNat * Second ∧
      waitedBefore isCmdRun evs =
        sampleConfig.RebootSeconds.toNat * Second + 10 * Second :=
  ⟨rfl, reboot_follows_countdown sampleEnv sampleConfig World.init rfl⟩

/-- C8, as stated, fails: after a failed run of the script `reboot` waits
10 seconds only and writes three log lines and the failure line, whereas after
a successful run it waits 10 and 120 seconds and writes six log lines. -/
theorem reboot_failure_skips_waits_counterexample :
    (reboot sampleEnv sampleConfig pendingWorld).map (fun w => (waits w.trace, lines w.trace)) =
      .ok ([10 * Second],
           ["2024-02-03 04:05:00: closing RCON client",
            "2024-02-03 04:05:01: Waiting to restart...",
            "2024-02-03 04:05:02: Rebooting...",
            "Failed to execute reboot script: exit status 1"]) ∧
    (reboot successEnv sampleConfig pendingWorld).map (fun w => (waits w.trace, lines w.trace)) =
      .ok ([10 * Second, 120 * Second],
           ["2024-02-03 04:05:00: closing RCON client",
            "2024-02-03 04:05:01: Waiting to restart...",
            "2024-02-03 04:05:02: Rebooting...",
            "2024-02-03 04:05:03: Reboot script executed successfully",
            "2024-02-03 04:05:04: Waiting for service to restart...",
            "2024-02-03 04:05:05: Service restarted"]) :=
  ⟨rfl, rfl⟩

/-- C8, amended: when the run of the script fails with the error `e`, `reboot`
has closed the connection, waited 10 seconds and run the script once, exactly
as before a successful run; it then writes the failure line and returns,
without a second run, without the second close, the 120-second wait and the
three log lines of the successful path; the cycle still completes, its join
returning with the counter at zero. -/
theorem reboot_script_failure (env : Env) (config : HelperConfig) (w : World) (e : String)
    (hwg : 1 ≤ w.wg) (hrun : env.run w.runCalls = some e) :
    (∃ w', reboot env config w = .ok w' ∧
      w'.trace = w.trace ++
        [stamp (env.now w.nowCalls) "closing RCON client", .clientClose,
         stamp (env.now (w.nowCalls + 1)) "Waiting to restart...", .sleep (10 * Second),
         stamp (env.now (w.nowCalls + 2)) "Rebooting...",
         .cmdRun "sh" [config.RebootScriptPath],
         .println ("Failed to execute reboot script: " ++ e), .wgAdd (-1)]) ∧
    (∀ envOk : Env, envOk.now = env.now → envOk.run w.runCalls = none →
      ∃ w2 tl, reboot envOk config w = .ok w2 ∧
        w2.trace = w.trace ++
          [stamp (env.now w.nowCalls) "closing RCON client", .clientClose,
           stamp (env.now (w.nowCalls + 1)) "Waiting to restart...", .sleep (10 * Second),
           stamp (env.now (w.nowCalls + 2)) "Rebooting...",
           .cmdRun "sh" [config.RebootScriptPath]] ++ tl ∧
        waits tl = [2 * Minute]) ∧
    (∀ w0 : World, w0.wg = 0 → env.run w0.runCalls = some e →
      ∃ w1 evs, rebootCycle env config w0 = .ok w1 ∧ w1.wg = 0 ∧
        w1.trace = w0.trace ++ evs ∧
        waits evs = List.replicate config.RebootSeconds.toNat Second ++ [10 * Second] ∧
        (evs.filter isCmdRun).length = 1) := by
  refine ⟨⟨_, reboot_eq env config w hwg, ?_⟩, ?_, ?_⟩
  · simp [rebootEvents, afterScriptEvents, hrun]
  · intro envOk hnow hok
    refine ⟨_, [stamp (env.now (w.nowCalls + 3)) "Reboot script executed successfully",
        .clientClose, stamp (env.now (w.nowCalls + 4)) "Waiting for service to restart...",
        .sleep (2 * Minute), stamp (env.now (w.nowCalls + 5)) "Service restarted",
        .wgAdd (-1)], reboot_eq envOk config w hwg, ?_, ?_⟩
    · simp [rebootEvents, afterScriptEvents, hok, hnow]
    · simp [waits, stamp]
  · intro w0 hw0 hrun0
    have hfilter : ∀ n : Nat, (countdownEvents n).filter isCmdRun = [] := by
      intro n
      induction n with
      | zero => rfl
      | succ n ih => simp [countdownEvents, isCmdRun, ih]
    refine ⟨_, _, rebootCycle_eq env config w0 hw0, rfl, rfl, ?_, ?_⟩
    · rw [cycleEvents_split]
      simp [waits, waits_append, waits_countdownEvents, stamp, rebootEvents,
        afterScriptEvents, hrun0]
    · rw [cycleEvents_split]
      simp [List.filter_cons, hfilter, isCmdRun, stamp, rebootEvents, afterScriptEvents, hrun0]

/-- C8, amended, on the sample configuration, with a script whose run fails. -/
theorem reboot_script_failure_witness :
    (1 : Int) ≤ pendingWorld.wg ∧ sampleEnv.run pendingWorld.runCalls = some "exit status 1" ∧
    ∃ w', reboot sampleEnv sampleConfig pendingWorld = .ok w' ∧
      w'.trace = pendingWorld.trace ++
        [stamp (sampleEnv.now pendingWorld.nowCalls) "closing RCON client", .clientClose,
         stamp (sampleEnv.now (pendingWorld.nowCalls + 1)) "Waiting to restart...",
         .sleep (10 * Second),
         stamp (sampleEnv.now (pendingWorld.nowCalls + 2)) "Rebooting...",
         .cmdRun "sh" [sampleConfig.RebootScriptPath],
         .println ("Failed to execute reboot script: " ++ "exit status 1"), .wgAdd (-1)] :=
  ⟨by decide, rfl,
   (reboot_script_failure sampleEnv sampleConfig pendingWorld "exit status 1"
      (by decide) rfl).1⟩

/-- C9, as stated, fails: the line written when the memory read fails and the
line written when the reboot script fails are not renderings of a time
followed by `": "` and a message; and the usage message ends in a newline, so
that the usage line is followed in the output by an empty line, which carries
no timestamp either. -/
theorem failure_lines_bypass_log_counterexample :
    (monitorMemoryUsage sampleEnv sampleConfig [.error "boom"] World.init).map
        (fun w => lines w.trace) = .ok ["Failed to get memory info: boom"] ∧
    ¬ IsLogLine "Failed to get memory info: boom" ∧
    (reboot sampleEnv sampleConfig pendingWorld).map (fun w => lines w.trace) =
      .ok ["2024-02-03 04:05:00: closing RCON client",
           "2024-02-03 04:05:01: Waiting to restart...",
           "2024-02-03 04:05:02: Rebooting...",
           "Failed to execute reboot script: exit status 1"] ∧
    ¬ IsLogLine "Failed to execute reboot script: exit status 1" ∧
    (monitorMemoryUsage sampleEnv sampleConfig [.ok ⟨.fin 85⟩] World.init).toOption.map
        (fun w => outputLines w.trace) =
      some ["2024-02-03 04:05:00: Current memory usage: 85.00%", ""] ∧
    ¬ IsLogLine "" :=
  ⟨rfl, not_isLogLine_of_head _ rfl, rfl, not_isLogLine_of_head _ rfl, by decide!,
   not_isLogLine_empty⟩

/-- C9, amended: the arguments of the `fmt.Println` calls of a run are, in
order, exactly the following.  A write through `log` is the rendering of the
time read by `time.Now()` at that very call, followed by `": "` and the
message passed: the usage message `Current memory usage: <%.2f>%` with its
final newline at every tick whose read succeeds, and in a cycle
`Notify to reboot`, `closing RCON client`, `Waiting to restart...`,
`Rebooting...` and, after a successful run of the script,
`Reboot script executed successfully`, `Waiting for service to restart...`,
`Service restarted`.  The two failure lines,
`Failed to get memory info: <error>` and
`Failed to execute reboot script: <error>`, are written by `fmt.Println`
directly and carry no timestamp.  In the text of the output each of the
seven fixed log messages makes one line; the usage message makes its
timestamped line and, because of its final newline, an empty line without
timestamp. -/
theorem output_lines_logged_or_failure (env : Env) (config : HelperConfig) (w : World)
    (hp : 0 < tickerPeriod config) (ticks : List (Except String VirtualMemoryStat)) :
    ∃ w' evs, monitorMemoryUsage env config ticks w = .ok w' ∧ w'.trace = w.trace ++ evs ∧
      lines evs =
        renderWrites env.now w.nowCalls (loopWrites config env.run w.runCalls ticks) ∧
      physLines (stdout evs) =
        (lines evs).flatMap (fun line => physLines (line.data ++ ['\n'])) ∧
      (∀ (t : Time) (m : String),
        m ∈ ["Notify to reboot", "closing RCON client", "Waiting to restart...",
          "Rebooting...", "Reboot script executed successfully",
          "Waiting for service to restart...", "Service restarted"] →
        physLines ((t.format ++ ": " ++ m).data ++ ['\n']) = [(t.format ++ ": " ++ m).data]) ∧
      (∀ (t : Time) (p : F64),
        physLines ((t.format ++ ": " ++
            ("Current memory usage: " ++ fmt2f p ++ "%\n")).data ++ ['\n']) =
          [(t.format ++ ": " ++ ("Current memory usage: " ++ fmt2f p ++ "%")).data, []]) ∧
      (∀ line ∈ lines evs, IsLogLine line ∨ IsFailureLine line) ∧
      (∀ line, IsFailureLine line → ¬ IsLogLine line) ∧
      ¬ IsLogLine "" := by
  obtain ⟨w', hw', -, evs, ht, hs⟩ :=
    monitorLoop_shape env config ticks { w with wg := 0 } rfl
  obtain ⟨w2, hw2, evs2, ht2, hl2⟩ :=
    monitorLoop_writes env config ticks { w with wg := 0 } rfl
  have hww : w2 = w' := by
    rw [hw'] at hw2
    exact (Except.ok.inj hw2).symm
  subst hww
  have hevs : evs2 = evs := List.append_cancel_left (ht2.symm.trans ht)
  subst hevs
  exact ⟨w2, evs2, by rw [monitorMemoryUsage_eq env config _ w hp, hw'], ht, hl2,
    physLines_stdout evs2, physLines_fixed, physLines_usage,
    lines_loopShape config ticks evs2 hs, not_isLogLine_of_isFailureLine,
    not_isLogLine_empty⟩

/-- C9, amended, on the sample configuration, for three ticks. -/
theorem output_lines_logged_or_failure_witness :
    0 < tickerPeriod sampleConfig ∧
    ∃ w' evs, monitorMemoryUsage sampleEnv sampleConfig
        [.ok ⟨.fin 85⟩, .error "boom", .ok ⟨.fin 95⟩] World.init = .ok w' ∧
      w'.trace = World.init.trace ++ evs ∧
      lines evs =
        renderWrites sampleEnv.now World.init.nowCalls
          (loopWrites sampleConfig sampleEnv.run World.init.runCalls
            [.ok ⟨.fin 85⟩, .error "boom", .ok ⟨.fin 95⟩]) :=
  ⟨by decide,
   let ⟨w', evs, h1, h2, h3, _⟩ :=
     output_lines_logged_or_failure sampleEnv sampleConfig World.init (by decide)
       [.ok ⟨.fin 85⟩, .error "boom", .ok ⟨.fin 95⟩]
   ⟨w', evs, h1, h2, h3⟩⟩

/-- C10: for every integer `rebootSeconds = N`, `notifyReboot` returns, after
`max(N, 0)` broadcasts and `max(N, 0)` waits of one second each and after the
reboot command carrying the decimal rendering of `N`; for `N ≤ 0` the reboot
command is all it does to the collaborators, and in a cycle the next thing
after it is the closing of the connection. -/
theorem notifyReboot_any_countdown (env : Env) (config : HelperConfig) (w : World)
    (hwg : 1 ≤ w.wg) :
    ∃ w' evs, notifyReboot env config w = .ok w' ∧ w'.trace = w.trace ++ evs ∧
      ((broadcasts evs).length : Int) = max config.RebootSeconds 0 ∧
      ((waits evs).length : Int) = max config.RebootSeconds 0 ∧
      (∀ d ∈ waits evs, d = Second) ∧
      (∃ rest, collab evs = .clientReboot (Itoa config.RebootSeconds) :: rest) ∧
      (config.RebootSeconds ≤ 0 →
        collab evs = [.clientReboot (Itoa config.RebootSeconds)] ∧
        ∀ w0 : World, w0.wg = 0 → ∃ w1 evs1 rest, rebootCycle env config w0 = .ok w1 ∧
          w1.trace = w0.trace ++ evs1 ∧
          collab evs1 =
            .clientReboot (Itoa config.RebootSeconds) :: .clientClose :: rest) ∧
      Itoa 0 = "0" ∧ Itoa (-5) = "-5" := by
  refine ⟨_, _, notifyReboot_eq env config w hwg, rfl, ?_, ?_, ?_, ?_, ?_, rfl, rfl⟩
  · simp only [notifyEvents, stamp, broadcasts, broadcasts_append, broadcasts_countdownEvents,
      List.append_nil, List.length_map, countdownCounts_length]
    omega
  · simp only [notifyEvents, stamp, waits, waits_append, waits_countdownEvents,
      List.append_nil, List.length_replicate]
    omega
  · intro d hd
    simp only [notifyEvents, stamp, waits, waits_append, waits_countdownEvents,
      List.append_nil] at hd
    exact List.eq_of_mem_replicate hd
  · exact ⟨_, collab_notifyEvents config _⟩
  · intro hle
    have h0 : config.RebootSeconds.toNat = 0 := by omega
    refine ⟨by rw [collab_notifyEvents, h0]; rfl, ?_⟩
    intro w0 hw0
    refine ⟨_, _, [.sleep (10 * Second), .cmdRun "sh" [config.RebootScriptPath]] ++
        (match env.run w0.runCalls with
          | none => [.clientClose, .sleep (2 * Minute)]
          | some _ => []),
      rebootCycle_eq env config w0 hw0, rfl, ?_⟩
    simp only [cycleEvents, List.cons_append]
    rw [show ∀ (e : Event) (l : List Event), collab (e :: l) = collab [e] ++ collab l from
      fun e l => collab_append [e] l, collab_append, collab_append, collab_notifyEvents,
      collab_rebootEvents, h0]
    simp [collab, isCollab, countdownEvents]

/-- C10 on the sample configuration with a countdown of minus five seconds. -/
theorem notifyReboot_any_countdown_witness :
    (1 : Int) ≤ pendingWorld.wg ∧
    ∃ w' evs,
      notifyReboot sampleEnv { sampleConfig with RebootSeconds := -5 } pendingWorld = .ok w' ∧
      w'.trace = pendingWorld.trace ++ evs ∧
      ((broadcasts evs).length : Int) = max (-5) 0 ∧
      ((waits evs).length : Int) = max (-5) 0 ∧
      (∀ d ∈ waits evs, d = Second) ∧
      (∃ rest, collab evs = .clientReboot (Itoa (-5)) :: rest) ∧
      ((-5 : Int) ≤ 0 →
        collab evs = [.clientReboot (Itoa (-5))] ∧
        ∀ w0 : World, w0.wg = 0 → ∃ w1 evs1 rest,
          rebootCycle sampleEnv { sampleConfig with RebootSeconds := -5 } w0 = .ok w1 ∧
          w1.trace = w0.trace ++ evs1 ∧
          collab evs1 = .clientReboot (Itoa (-5)) :: .clientClose :: rest) ∧
      Itoa 0 = "0" ∧ Itoa (-5) = "-5" :=
  ⟨by decide,
   notifyReboot_any_countdown sampleEnv { sampleConfig with RebootSeconds := -5 } pendingWorld
     (by decide)⟩

end PalServerHelper
